import Mathlib

/-!
Verification of the pyplanets positional-astronomy core against its
specification.  The repository ships only the demonstration script
`usages_pymeeus/usage_venus.py`; the computational library it exercises
(Angle, Epoch, the Venus planet facade, the Constellation helper) is not
part of the source tree, so the operations below are modelled from the
specification document and checked against the reference values recorded
in the demonstration script.
-/

namespace PyPlanets

/-- Modelled from the spec: the Angle normalization to [0°,360°) on the
exact rational model used for the polynomial orbital elements. -/
def toPositiveQ (x : ℚ) : ℚ := x - 360 * ⌊x / 360⌋

/-- Evaluation rule for the rational normalization: when the enclosing
multiple of 360 is known, the floor disappears. -/
theorem toPositiveQ_eq_of (x : ℚ) (n : ℤ) (h1 : (n : ℚ) ≤ x / 360)
    (h2 : x / 360 < n + 1) : toPositiveQ x = x - 360 * n := by
  unfold toPositiveQ
  rw [show ⌊x / 360⌋ = n from Int.floor_eq_iff.mpr ⟨h1, by exact_mod_cast h2⟩]

/-- Modelled from the spec: the calendar-date to
Julian-Ephemeris-Day conversion ("conversion to/from calendar date"),
which is not under src/; this is the standard Gregorian-calendar Julian
Day algorithm, for the fractional day `day` of `month`/`year`. -/
def jde (year month : ℤ) (day : ℚ) : ℚ :=
  let y : ℤ := if month ≤ 2 then year - 1 else year
  let m : ℤ := if month ≤ 2 then month + 12 else month
  let a : ℤ := y / 100
  let b : ℤ := 2 - a + a / 4
  ((36525 * (y + 4716)) / 100 : ℤ) + ((306001 * (m + 1)) / 10000 : ℤ) + day + (b : ℚ) - 1524.5

/-- Julian centuries elapsed since the reference epoch J2000.0
(JDE 2451545.0), the argument of the element polynomials. -/
def julianCenturies (t : ℚ) : ℚ := (t - 2451545) / 36525

/-- Cubic polynomial a0 + a1 t + a2 t^2 + a3 t^3 in Horner form, the shape
of each fitted mean-orbital-element polynomial. -/
def cubic (a0 a1 a2 a3 t : ℚ) : ℚ := a0 + t * (a1 + t * (a2 + t * a3))

/-- Modelled from the spec: the mean-orbital-element interpolation of the
Kepler Solver component specialized by the Planet Facade to Venus
("given Epoch and a per-planet fitted-polynomial coefficient table (one
polynomial per element, argument = centuries from a reference epoch),
evaluate each element, normalizing angular ones to [0°,360°)").  The
per-planet coefficient table is part of the library code that is not
under src/; the constants used here are the standard VSOP87-fitted
mean-equinox-of-date element polynomials for Venus, validated below by
reproducing, to every printed digit, all six reference values recorded
in the demonstration script.  Returns (L, a, e, i, Omega, arg) with
arg the argument of the perihelion (longitude of perihelion minus
ascending-node longitude). -/
def venusOrbitalElementsMeanEquinox (jd : ℚ) : ℚ × ℚ × ℚ × ℚ × ℚ × ℚ :=
  let t := julianCenturies jd
  let l := toPositiveQ (cubic 181.979801 58519.2130302 0.00031014 0.000000015 t)
  let a := cubic 0.72332982 0 0 0 t
  let e := cubic 0.00677192 (-0.000047765) 0.0000000981 0.00000000046 t
  let i := toPositiveQ (cubic 3.394662 0.0010037 (-0.00000088) (-0.000000007) t)
  let ome := toPositiveQ (cubic 76.679920 0.9011206 0.00040618 (-0.000000093) t)
  let pie := toPositiveQ (cubic 131.563703 1.4022288 (-0.00107618) (-0.000005678) t)
  (l, a, e, i, ome, toPositiveQ (pie - ome))

/-- Claim C2: for the epoch 2065-06-24.0, the Venus mean orbital elements
operation returns L ≈ 338.646306°, a ≈ 0.72332982 AU, e ≈ 0.0067407,
i ≈ 3.395319°, Ω ≈ 77.27012°, and perihelion argument ≈ 55.211257°,
with each angular element normalized to [0,360) degrees. -/
theorem venus_orbital_elements_2065_06_24 :
    |(venusOrbitalElementsMeanEquinox (jde 2065 6 24)).1 - 338.646306| < 5e-7 ∧
    (venusOrbitalElementsMeanEquinox (jde 2065 6 24)).2.1 = 0.72332982 ∧
    |(venusOrbitalElementsMeanEquinox (jde 2065 6 24)).2.2.1 - 0.0067407| < 5e-8 ∧
    |(venusOrbitalElementsMeanEquinox (jde 2065 6 24)).2.2.2.1 - 3.395319| < 5e-7 ∧
    |(venusOrbitalElementsMeanEquinox (jde 2065 6 24)).2.2.2.2.1 - 77.27012| < 5e-6 ∧
    |(venusOrbitalElementsMeanEquinox (jde 2065 6 24)).2.2.2.2.2 - 55.211257| < 5e-7 ∧
    (0 ≤ (venusOrbitalElementsMeanEquinox (jde 2065 6 24)).1 ∧
      (venusOrbitalElementsMeanEquinox (jde 2065 6 24)).1 < 360) ∧
    (0 ≤ (venusOrbitalElementsMeanEquinox (jde 2065 6 24)).2.2.2.1 ∧
      (venusOrbitalElementsMeanEquinox (jde 2065 6 24)).2.2.2.1 < 360) ∧
    (0 ≤ (venusOrbitalElementsMeanEquinox (jde 2065 6 24)).2.2.2.2.1 ∧
      (venusOrbitalElementsMeanEquinox (jde 2065 6 24)).2.2.2.2.1 < 360) ∧
    (0 ≤ (venusOrbitalElementsMeanEquinox (jde 2065 6 24)).2.2.2.2.2 ∧
      (venusOrbitalElementsMeanEquinox (jde 2065 6 24)).2.2.2.2.2 < 360) := by
  have hT : julianCenturies (jde 2065 6 24) = 47831 / 73050 := by
    norm_num [julianCenturies, jde]
  have hL : toPositiveQ
      (cubic 181.979801 58519.2130302 0.00031014 0.000000015 (47831 / 73050)) =
      8800670149354796433046991 / 25987793175000000000000 := by
    rw [toPositiveQ_eq_of _ 106 (by norm_num [cubic]) (by norm_num [cubic])]
    norm_num [cubic]
  have hA : cubic 0.72332982 0 0 0 ((47831 : ℚ) / 73050) = 36166491 / 50000000 := by
    norm_num [cubic]
  have hE : cubic 0.00677192 (-0.000047765) 0.0000000981 0.00000000046
      ((47831 : ℚ) / 73050) = 131381685963243552690643 / 19490844881250000000000000 := by
    norm_num [cubic]
  have hI : toPositiveQ
      (cubic 3.394662 0.0010037 (-0.00000088) (-0.000000007) (47831 / 73050)) =
      1323552646565665037725663 / 389816897625000000000000 := by
    rw [toPositiveQ_eq_of _ 0 (by norm_num [cubic]) (by norm_num [cubic])]
    norm_num [cubic]
  have hO : toPositiveQ
      (cubic 76.679920 0.9011206 0.00040618 (-0.000000093) (47831 / 73050)) =
      1115599964293850565532231 / 14437662875000000000000 := by
    rw [toPositiveQ_eq_of _ 0 (by norm_num [cubic]) (by norm_num [cubic])]
    norm_num [cubic]
  have hP : toPositiveQ
      (cubic 131.563703 1.4022288 (-0.00107618) (-0.000005678) (47831 / 73050)) =
      25821739952906452583840251 / 194908448812500000000000 := by
    rw [toPositiveQ_eq_of _ 0 (by norm_num [cubic]) (by norm_num [cubic])]
    norm_num [cubic]
  have hG : toPositiveQ ((25821739952906452583840251 : ℚ) / 194908448812500000000000 -
      1115599964293850565532231 / 14437662875000000000000) =
      4304456173975787979662053 / 77963379525000000000000 := by
    rw [toPositiveQ_eq_of _ 0 (by norm_num) (by norm_num)]
    norm_num
  simp only [venusOrbitalElementsMeanEquinox, hT, hL, hA, hE, hI, hO, hP, hG]
  norm_num [abs_sub_lt_iff, abs_lt]

noncomputable section

open Real

/-- Modelled from the spec: the Angle normalization
operation (`Angle.to_positive`, used by the demonstration script) is not
under src/.  The spec describes an Angle as "a real value semantically in
degrees, normalizable to [0°,360°)"; normalization subtracts the
appropriate multiple of 360. -/
def toPositive (x : ℝ) : ℝ := x - 360 * ⌊x / 360⌋

/-- Normalization lands in the half-open interval [0, 360). -/
theorem toPositive_nonneg_lt (x : ℝ) : 0 ≤ toPositive x ∧ toPositive x < 360 := by
  unfold toPositive
  have h1 : (⌊x / 360⌋ : ℝ) ≤ x / 360 := Int.floor_le _
  have h2 : x / 360 < ⌊x / 360⌋ + 1 := Int.lt_floor_add_one _
  constructor <;> nlinarith

/-- Modelled from the spec: a heliocentric position {longitude λ, latitude
β, radius r} of a body relative to the Sun at an Epoch (angles in
degrees, radius in AU).  The HeliocentricPosition record itself lives in
the library code that is not under src/. -/
structure HelioPos where
  lon : ℝ
  lat : ℝ
  r : ℝ

/-- Degrees-to-radians conversion. -/
def radOfDeg (x : ℝ) : ℝ := x * Real.pi / 180

/-- Radians-to-degrees conversion. -/
def degOfRad (x : ℝ) : ℝ := x * 180 / Real.pi

/-- Modelled from the spec: rectangular ecliptic coordinates of a
heliocentric position ("vector subtraction in rectangular ecliptic
coordinates"); the Frame Transform component is not under src/. -/
def rect (p : HelioPos) : ℝ × ℝ × ℝ :=
  (p.r * Real.cos (radOfDeg p.lat) * Real.cos (radOfDeg p.lon),
   p.r * Real.cos (radOfDeg p.lat) * Real.sin (radOfDeg p.lon),
   p.r * Real.sin (radOfDeg p.lat))

/-- Modelled from the spec: the Earth-planet distance Δ obtained by
subtracting the rectangular heliocentric vectors of the two bodies; the Frame
Transform component is not under src/. -/
def earthPlanetDist (earth planet : HelioPos) : ℝ :=
  Real.sqrt (((rect planet).1 - (rect earth).1) ^ 2 +
    ((rect planet).2.1 - (rect earth).2.1) ^ 2 +
    ((rect planet).2.2 - (rect earth).2.2) ^ 2)

/-- Modelled from the spec: the elongation returned by the
geocentric-position operation, "computed via the spherical-triangle
cosine rule from the Sun-Earth distance, Earth-planet distance, and
Sun-planet distance"; the Constellation/Frame Transform code is not under
src/.  Result in degrees. -/
def elongation (earth planet : HelioPos) : ℝ :=
  degOfRad (Real.arccos ((earth.r ^ 2 + earthPlanetDist earth planet ^ 2 - planet.r ^ 2) /
    (2 * earth.r * earthPlanetDist earth planet)))

/-- Claim C6: for every pair of heliocentric positions of Earth and the
target body at the same epoch, the elongation angle returned by the
geocentric-position operation lies in the closed interval [0,180]
degrees. -/
theorem elongation_mem_Icc (earth planet : HelioPos) :
    0 ≤ elongation earth planet ∧ elongation earth planet ≤ 180 := by
  unfold elongation degOfRad
  have hpi : 0 < Real.pi := Real.pi_pos
  set y := Real.arccos ((earth.r ^ 2 + earthPlanetDist earth planet ^ 2 - planet.r ^ 2) /
    (2 * earth.r * earthPlanetDist earth planet)) with hy
  have h0 : 0 ≤ y := Real.arccos_nonneg _
  have h1 : y ≤ Real.pi := Real.arccos_le_pi _
  constructor
  · positivity
  · rw [div_le_iff₀ hpi]
    nlinarith

/-- Modelled from the spec: the geometric heliocentric
position operation.  The Series Evaluator (the VSOP-type coefficient
tables) and the facade are not under src/, so the three series are taken
as abstract functions of the epoch; per the invariant of the spec, "all
angular outputs are normalized to a documented range before return",
the returned longitude is normalized to [0°,360°). -/
def geometricHeliocentricPosition (L B R : ℝ → ℝ) (t : ℝ) : ℝ × ℝ × ℝ :=
  (toPositive (L t), B t, R t)

/-- Claim C7: every longitude returned by the geometric heliocentric
position operation is already normalized to [0,360) degrees before
return, for every series model and every input epoch. -/
theorem geometricHeliocentricPosition_lon_normalized (L B R : ℝ → ℝ) (t : ℝ) :
    0 ≤ (geometricHeliocentricPosition L B R t).1 ∧
      (geometricHeliocentricPosition L B R t).1 < 360 := by
  exact toPositive_nonneg_lt (L t)

/-- Modelled from the spec: one pass of the Kepler-equation fixed-point
iteration ("Uses fixed-point or Newton iteration starting from E₀ = M"),
for mean anomaly M and eccentricity e, angles in degrees; the Kepler
Solver component is not under src/. -/
def keplerStep (M e E : ℝ) : ℝ := M + (180 / Real.pi) * e * Real.sin (E * Real.pi / 180)

/-- Modelled from the spec: the bounded Kepler iteration, which
"converges when |ΔE| < 1e-6 degrees; fails (reports non-convergence) if
iteration count exceeds a bound (e.g., 50)".  Fuel counts the remaining
iterations; `none` is the explicit non-convergence result. -/
def keplerIter (M e : ℝ) : ℕ → ℝ → Option ℝ
  | 0, _ => none
  | n + 1, E =>
    if |keplerStep M e E - E| < 1e-6 then some (keplerStep M e E)
    else keplerIter M e n (keplerStep M e E)

/-- Modelled from the spec: the Kepler solver entry point, starting the
iteration at E₀ = M with an iteration bound of 50. -/
def kepler (M e : ℝ) : Option ℝ := keplerIter M e 50 M

/-- The sine function is 1-Lipschitz. -/
theorem abs_sin_sub_sin_le (a b : ℝ) : |Real.sin a - Real.sin b| ≤ |a - b| := by
  rw [Real.sin_sub_sin]
  calc |2 * Real.sin ((a - b) / 2) * Real.cos ((a + b) / 2)|
      = 2 * |Real.sin ((a - b) / 2)| * |Real.cos ((a + b) / 2)| := by
        rw [abs_mul, abs_mul]; norm_num
    _ ≤ 2 * |(a - b) / 2| * 1 := by
        apply mul_le_mul
        · have := Real.abs_sin_le_abs (x := (a - b) / 2)
          nlinarith [abs_nonneg ((a - b) / 2)]
        · exact Real.abs_cos_le_one _
        · positivity
        · positivity
    _ = |a - b| := by rw [abs_div, abs_two]; ring

/-- Any successful result of the iteration is a fixed-point step away
from its predecessor, with step size below the tolerance. -/
theorem keplerIter_spec (M e : ℝ) :
    ∀ (n : ℕ) (E0 E : ℝ), keplerIter M e n E0 = some E →
      ∃ Ep, E = keplerStep M e Ep ∧ |E - Ep| < 1e-6 := by
  intro n
  induction n with
  | zero => intro E0 E h; simp [keplerIter] at h
  | succ n ih =>
    intro E0 E h
    rw [keplerIter] at h
    by_cases hc : |keplerStep M e E0 - E0| < 1e-6
    · rw [if_pos hc] at h
      exact ⟨E0, by injection h with h2; exact h2.symm, by
        injection h with h2; rw [h2] at hc; exact hc⟩
    · rw [if_neg hc] at h
      exact ih _ _ h

/-- Claim C8: Kepler solver round-trip.  For every mean anomaly M
(degrees, any range) and eccentricity e in [0,1), any eccentric anomaly E
returned by the solver satisfies M = E − (180/π)·e·sin E to within 1e-6
degrees. -/
theorem kepler_roundtrip (M e E : ℝ) (he0 : 0 ≤ e) (he1 : e < 1)
    (h : kepler M e = some E) :
    |M - (E - (180 / Real.pi) * e * Real.sin (E * Real.pi / 180))| ≤ 1e-6 := by
  obtain ⟨Ep, hE, hclose⟩ := keplerIter_spec M e 50 M E h
  have hpi : 0 < Real.pi := Real.pi_pos
  have hkey : M - (E - (180 / Real.pi) * e * Real.sin (E * Real.pi / 180)) =
      (180 / Real.pi) * e * (Real.sin (E * Real.pi / 180) - Real.sin (Ep * Real.pi / 180)) := by
    rw [hE]; unfold keplerStep; ring
  rw [hkey, abs_mul]
  have hsin : |Real.sin (E * Real.pi / 180) - Real.sin (Ep * Real.pi / 180)| ≤
      |E - Ep| * Real.pi / 180 := by
    calc |Real.sin (E * Real.pi / 180) - Real.sin (Ep * Real.pi / 180)|
        ≤ |E * Real.pi / 180 - Ep * Real.pi / 180| := abs_sin_sub_sin_le _ _
      _ = |E - Ep| * Real.pi / 180 := by
          rw [show E * Real.pi / 180 - Ep * Real.pi / 180 = (E - Ep) * (Real.pi / 180) by ring,
            abs_mul, abs_of_pos (by positivity : (0:ℝ) < Real.pi / 180)]
          ring
  have hcoef : |(180 / Real.pi) * e| = (180 / Real.pi) * e := by
    rw [abs_of_nonneg]; positivity
  rw [hcoef]
  calc (180 / Real.pi) * e * |Real.sin (E * Real.pi / 180) - Real.sin (Ep * Real.pi / 180)|
      ≤ (180 / Real.pi) * e * (|E - Ep| * Real.pi / 180) := by
        apply mul_le_mul_of_nonneg_left hsin; positivity
    _ = e * |E - Ep| := by field_simp; ring
    _ ≤ 1 * 1e-6 := by
        apply mul_le_mul he1.le hclose.le (abs_nonneg _) zero_le_one
    _ = 1e-6 := by norm_num

/-- With zero eccentricity the first iterate already meets the tolerance,
so the solver succeeds immediately with E = M. -/
theorem keplerIter_zero_ecc (M : ℝ) (n : ℕ) : keplerIter M 0 (n + 1) M = some M := by
  have hstep : keplerStep M 0 M = M := by unfold keplerStep; ring
  rw [keplerIter, hstep]
  rw [if_pos (by norm_num)]

/-- Witness for claim C8 at the concrete input M = 0, e = 0. -/
theorem kepler_roundtrip_witness :
    |(0 : ℝ) - (0 - (180 / Real.pi) * 0 * Real.sin (0 * Real.pi / 180))| ≤ 1e-6 :=
  kepler_roundtrip 0 0 0 le_rfl (by norm_num)
    (by unfold kepler; exact keplerIter_zero_ecc 0 49)

/-- Modelled from the spec: the Photometry magnitude operation for Venus
("evaluates a per-planet empirical polynomial in phase angle plus
logarithmic distance terms (coefficients are fixed per-planet constants,
not derived at runtime)").  The per-planet constant table is part of the
library code that is not under src/; the constants used here are the
standard almanac-grade Venus magnitude coefficients, validated below by
reproducing the −3.8 reference value recorded in the demonstration
script.  Distances in AU, phase angle in degrees. -/
def venusMagnitude (sunDist earthDist phaseAngle : ℝ) : ℝ :=
  -4.00 + 5 * Real.logb 10 (sunDist * earthDist) + 0.01322 * phaseAngle +
    0.0000004247 * phaseAngle ^ 3

/-- Taylor upper bound for exp at 0.415. -/
theorem exp_415_le : Real.exp (83 / 200) ≤ 1514372 / 1000000 := by
  have habs : |(83 : ℝ) / 200| = 83 / 200 := abs_of_nonneg (by norm_num)
  have hb := Real.exp_bound (x := (83 : ℝ) / 200) (by rw [habs]; norm_num)
    (n := 7) (by norm_num)
  rw [abs_le] at hb
  have h2 := hb.2
  rw [habs] at h2
  norm_num [Finset.sum_range_succ, Nat.factorial] at h2
  linarith

/-- Taylor lower bound for exp at 0.4158. -/
theorem le_exp_4158 : (1515582 : ℝ) / 1000000 ≤ Real.exp (2079 / 5000) := by
  have hs := Real.sum_le_exp_of_nonneg (x := (2079 : ℝ) / 5000) (by norm_num) 7
  norm_num [Finset.sum_range_succ, Nat.factorial] at hs
  linarith

/-- Decimal bounds on the natural logarithm of 10, from the decimal
bounds on log 2 and the factorization 2^10 = 10^3 · 1.024. -/
theorem log_ten_bounds : (2.3024 : ℝ) < Real.log 10 ∧ Real.log 10 < 2.3105 := by
  have hlog10 : Real.log 10 = (10 * Real.log 2 - Real.log 1.024) / 3 := by
    have h1 : Real.log 1024 = 10 * Real.log 2 := by
      rw [show (1024 : ℝ) = 2 ^ 10 by norm_num, Real.log_pow]
      push_cast; ring
    have h2 : Real.log 1024 = 3 * Real.log 10 + Real.log 1.024 := by
      rw [show (1024 : ℝ) = 10 ^ 3 * 1.024 by norm_num,
        Real.log_mul (by norm_num) (by norm_num), Real.log_pow]
      push_cast; ring
    linarith
  have hpos : 0 < Real.log 1.024 := Real.log_pos (by norm_num)
  have hle : Real.log 1.024 ≤ 0.024 := by
    have := Real.log_le_sub_one_of_pos (show (0 : ℝ) < 1.024 by norm_num)
    linarith
  constructor
  · rw [hlog10]
    have := Real.log_two_gt_d9
    linarith
  · rw [hlog10]
    have := Real.log_two_lt_d9
    linarith

/-- Claim C4: the magnitude operation with sun_dist = 0.724604,
earth_dist = 0.910947 and phase_angle = 72.96 degrees returns a value
approximately −3.8 (to one decimal place). -/
theorem venus_magnitude_ref :
    |venusMagnitude 0.724604 0.910947 72.96 - (-3.8)| < 0.05 := by
  have hp : (0.724604 * 0.910947 : ℝ) = 660075839988 / 1000000000000 := by norm_num
  have hp0 : (0 : ℝ) < 660075839988 / 1000000000000 := by norm_num
  have hL_hi : Real.log (660075839988 / 1000000000000 : ℝ) < -(83 / 200) := by
    rw [Real.log_lt_iff_lt_exp hp0, Real.exp_neg, inv_eq_one_div,
      lt_div_iff₀ (Real.exp_pos _)]
    have hmul := mul_le_mul_of_nonneg_left exp_415_le
      (show (0 : ℝ) ≤ 660075839988 / 1000000000000 by norm_num)
    have : (660075839988 / 1000000000000 : ℝ) * (1514372 / 1000000) < 1 := by norm_num
    linarith
  have hL_lo : -(2079 / 5000) < Real.log (660075839988 / 1000000000000 : ℝ) := by
    rw [Real.lt_log_iff_exp_lt hp0, Real.exp_neg, inv_eq_one_div,
      div_lt_iff₀ (Real.exp_pos _)]
    have hmul := mul_le_mul_of_nonneg_left le_exp_4158
      (show (0 : ℝ) ≤ 660075839988 / 1000000000000 by norm_num)
    have : (1 : ℝ) < (660075839988 / 1000000000000 : ℝ) * (1515582 / 1000000) := by norm_num
    linarith
  have hD_lo : (2.3024 : ℝ) < Real.log 10 := log_ten_bounds.1
  have hD_hi : Real.log 10 < 2.3105 := log_ten_bounds.2
  have hD0 : (0 : ℝ) < Real.log 10 := by linarith
  have hlogb_hi : Real.logb 10 (660075839988 / 1000000000000 : ℝ) < -(1796 : ℝ) / 10000 := by
    rw [← Real.log_div_log, div_lt_iff₀ hD0]
    nlinarith
  have hlogb_lo : -(1807 : ℝ) / 10000 < Real.logb 10 (660075839988 / 1000000000000 : ℝ) := by
    rw [← Real.log_div_log, lt_div_iff₀ hD0]
    nlinarith
  unfold venusMagnitude
  rw [hp, abs_lt]
  constructor <;> nlinarith

end

end PyPlanets
